import Mathlib

/-!
Verification of the Nanos6 cluster runtime core: a shallow embedding of the
execution-workflow engine (`src/executors/workflow/ExecutionWorkflow.cpp`),
the tree leaf scheduler (`src/scheduling/schedulers/tree-scheduler/LeafScheduler.hpp`),
the scheduler configuration (`src/scheduling/SchedulerInterface.cpp`) and the
thread-manager shutdown collective (`src/executors/threads/ThreadManager.cpp`),
with theorems settling the specification's claims about them.
-/

namespace Nanos6

/-- The device kinds indexing the workflow transfer table
(`nanos6_device_t` restricted to the rows/columns of `_transfersMap`:
host, cuda, opencl, cluster). -/
inductive Device where
  | host
  | cuda
  | opencl
  | cluster
deriving DecidableEq, Repr

/-- A memory place: its device kind, whether it is the distinguished
directory memory place (`Directory::isDirectoryMemoryPlace`), and its node
index (meaningful for cluster memory places). -/
structure MemoryPlace where
  type : Device
  isDirectory : Bool
  nodeIndex : Nat
deriving DecidableEq, Repr

/-- The two copy-step constructors appearing in `_transfersMap`:
`nullCopy` builds a plain (immediately satisfied) `Step`, `clusterCopy`
builds a `ClusterDataCopyStep`. -/
inductive CopyStepKind where
  | nullCopy
  | clusterCopy
deriving DecidableEq, Repr

/-- The transfer table `_transfersMap` of `ExecutionWorkflow.cpp` lines 30-36,
indexed source kind then target kind. -/
def transfersMap : Device → Device → CopyStepKind
  | .host, .host => .nullCopy
  | .host, .cuda => .nullCopy
  | .host, .opencl => .nullCopy
  | .host, .cluster => .clusterCopy
  | .cuda, _ => .nullCopy
  | .opencl, _ => .nullCopy
  | .cluster, .host => .clusterCopy
  | .cluster, .cuda => .nullCopy
  | .cluster, .opencl => .nullCopy
  | .cluster, .cluster => .clusterCopy

/-- The source type used for the table lookup in `createDataCopyStep`:
a null source memory place (dependency not yet read satisfied) is treated
as a host source (`ExecutionWorkflow.cpp` lines 70-71). -/
def sourceTypeOf : Option MemoryPlace → Device
  | none => .host
  | some m => m.type

/-- `Directory::isDirectoryMemoryPlace` lifted to a possibly-null pointer:
the null pointer is not the directory memory place. -/
def isDirectoryOpt : Option MemoryPlace → Bool
  | none => false
  | some m => m.isDirectory

/-- The observable outcome of `WorkflowBase::createDataCopyStep`: which kind
of step was built, and whether `access->setValidNamespaceSelf(...)` was
called on the access. -/
structure CopyStepResult where
  step : CopyStepKind
  validNamespaceSelfSet : Bool
deriving DecidableEq, Repr

/-- The access types of a `DataAccess`. -/
inductive AccessType where
  | read
  | write
  | readwrite
  | reduction
  | commutative
  | concurrent
deriving DecidableEq, Repr

/-- `WorkflowBase::createDataCopyStep` (`ExecutionWorkflow.cpp` lines 38-100).
Parameters: whether `ClusterManager::inClusterMode()`, the current memory node
(`ClusterManager::getCurrentMemoryNode()`), the access's current location
(null means not read satisfied), the target memory place (null models a null
pointer), and the access type.  An `Except.error` models a failed assertion. -/
def createDataCopyStep (clusterMode : Bool) (currentNode : MemoryPlace)
    (source : Option MemoryPlace) (target : Option MemoryPlace)
    (ty : AccessType) : Except String CopyStepResult :=
  if ty = .reduction ∨ ty = .commutative ∨ ty = .concurrent then
    Except.ok ⟨.nullCopy, false⟩
  else
    match target with
    | none => Except.error "assert targetMemoryPlace != nullptr"
    | some tgt =>
      if tgt.isDirectory then
        Except.error "assert !Directory::isDirectoryMemoryPlace(targetMemoryPlace)"
      else
        let sourceType := sourceTypeOf source
        let targetType := tgt.type
        let vns : Bool := targetType = Device.host ∨ tgt = currentNode
        let step :=
          if isDirectoryOpt source ∧ clusterMode then
            CopyStepKind.clusterCopy
          else
            transfersMap sourceType targetType
        Except.ok ⟨step, vns⟩

/-- The notification-step variants built by `createNotificationStep`. -/
inductive NotificationStepKind where
  | hostNotification
  | clusterNotification
deriving DecidableEq, Repr

/-- `WorkflowBase::createNotificationStep` (`ExecutionWorkflow.cpp` lines
118-138): a null compute place is treated as a host device; host builds a
`HostNotificationStep`, cluster a `ClusterNotificationStep`, and any other
device kind calls `FatalErrorHandler::failIf` (modelled as `Except.error`). -/
def createNotificationStep (computePlace : Option Device) :
    Except String NotificationStepKind :=
  let ty := match computePlace with
    | none => Device.host
    | some d => d
  match ty with
  | .host => Except.ok .hostNotification
  | .cluster => Except.ok .clusterNotification
  | _ => Except.error "Execution workflow does not support this device yet"

/-- The observable events of the notification-step callback created in
`executeTask` (`ExecutionWorkflow.cpp` lines 281-328) and of the dependency
registrar it calls into. -/
inductive Event where
  | unregisterLocallyPropagated
  | markAsFinished (result : Bool)
  | taskFinished
  | markAsReleased (result : Bool)
  | disposeTask
  | propagateSatisfiability
  | deleteWorkflow
deriving DecidableEq, Repr

/-- Modelled from the spec: the registrar's
`DataAccessRegistration::unregisterTaskDataAccesses` is not under `src/`;
per the spec it runs the supplied finalisation callback and only then
propagates satisfiability to successor tasks. -/
def unregisterTaskDataAccesses (finaliser : List Event) : List Event :=
  finaliser ++ [Event.propagateSatisfiability]

/-- The finalisation callback passed to `unregisterTaskDataAccesses` by the
notification callback (`ExecutionWorkflow.cpp` lines 315-323): run the
cluster-aware `TaskFinalization::taskFinished`, then `markAsReleased`
(its result is the parameter), disposing the task exactly when it is true. -/
def finalisationCallback (released : Bool) : List Event :=
  [Event.taskFinished, Event.markAsReleased released] ++
    (if released then [Event.disposeTask] else [])

/-- The notification callback of `executeTask` (`ExecutionWorkflow.cpp`
lines 282-326): unregister locally propagated accesses, `markAsFinished`
(its result is the parameter `finished`), and when it returned true,
unregister all data accesses with the finalisation callback; then
`delete workflow`. -/
def notificationCallback (finished released : Bool) : List Event :=
  [Event.unregisterLocallyPropagated, Event.markAsFinished finished] ++
    (if finished then unregisterTaskDataAccesses (finalisationCallback released)
     else []) ++
    [Event.deleteWorkflow]

/-- `a` occurs in `tr` and its first occurrence is before the first
occurrence of `b` (which also occurs). -/
def precedes (tr : List Event) (a b : Event) : Prop :=
  a ∈ tr ∧ b ∈ tr ∧ tr.indexOf a < tr.indexOf b

instance (tr : List Event) (a b : Event) : Decidable (precedes tr a b) := by
  unfold precedes
  infer_instance

/-- The state of a `LeafScheduler` as far as `addTask`/`addTaskBatch`
observe it: the FIFO queue contents (task ids, front first), the
single-task polling slot, the queue threshold, the rebalance flag, and the
batches handed up to the parent so far (`_parent->addTaskBatch`). -/
structure LeafState where
  queue : List Nat
  slot : Option Nat
  threshold : Nat
  rebalance : Bool
  handedUp : List (List Nat)
deriving DecidableEq, Repr

/-- Modelled from the spec: `TreeSchedulerQueueInterface::getTaskBatch(n)`
is not under `src/`; per the spec it removes up to `n` tasks from the
queue (taking from the end opposite to the dequeue end) and returns them
as a batch. -/
def getTaskBatch (n : Nat) (q : List Nat) : List Nat × List Nat :=
  (q.take n, q.drop n)

/-- `LeafScheduler::handleQueueOverflow` (`LeafScheduler.hpp` lines 38-51):
take a batch of `threshold / 2` tasks (at least 1) from the queue and, when
the batch is non-empty, hand it to the parent. -/
def handleQueueOverflow (st : LeafState) : LeafState :=
  let th := if st.threshold / 2 = 0 then 1 else st.threshold / 2
  let res := getTaskBatch th st.queue
  if res.1.length > 0 then
    { st with queue := res.2, handedUp := st.handedUp ++ [res.1] }
  else
    st

/-- `LeafScheduler::addTask` (`LeafScheduler.hpp` lines 71-110): with a
compute place, enqueue and overflow when the queue exceeds the threshold;
without one, try the polling slot first and fall back to the queue (with the
same overflow check); either way the rebalance flag is cleared. -/
def addTask (st : LeafState) (task : Nat) (hasComputePlace : Bool) : LeafState :=
  let st' :=
    if hasComputePlace then
      let q := st.queue ++ [task]
      let st1 := { st with queue := q }
      if q.length > st.threshold then handleQueueOverflow st1 else st1
    else
      if st.slot = none then
        { st with slot := some task }
      else
        let q := st.queue ++ [task]
        let st1 := { st with queue := q }
        if q.length > st.threshold then handleQueueOverflow st1 else st1
  { st' with rebalance := false }

/-- `LeafScheduler::addTaskBatch` (`LeafScheduler.hpp` lines 112-136):
try to place the batch's tail task in the polling slot; on success pop it
from the batch; then enqueue what remains of the batch. -/
def addTaskBatch (st : LeafState) (batch : List Nat) : LeafState :=
  match batch.getLast? with
  | none => st
  | some tail =>
    if st.slot = none then
      { st with slot := some tail, queue := st.queue ++ batch.dropLast }
    else
      { st with queue := st.queue ++ batch }

/-- The queue disciplines of `SchedulerInterface::SchedulingPolicy`. -/
inductive SchedulingPolicy where
  | fifo
  | lifo
deriving DecidableEq, Repr

/-- The scheduling-policy selection of the `SchedulerInterface` constructor
(`SchedulerInterface.cpp` lines 26-29): the policy defaults to FIFO and is
switched to LIFO exactly for the strings "LIFO" and "lifo".  The `Except`
result models a `FatalErrorHandler` abort; the constructor has no abort path
tied to the policy value. -/
def selectSchedulingPolicy (value : String) : Except String SchedulingPolicy :=
  if value = "LIFO" ∨ value = "lifo" then
    Except.ok SchedulingPolicy.lifo
  else
    Except.ok SchedulingPolicy.fifo

/-- Modelled from the spec: the callers of `createDataCopyStep` supply target
memory places — the scheduler-assigned target memory place in `executeTask`
and the taskwait fragment's output location (already checked non-null) in
`setupTaskwaitWorkflow` — and the directory memory place "is never a legal
target and appears only as a source". -/
def LegalCopyTarget (mp : MemoryPlace) : Prop := mp.isDirectory = false

/-- The events of the shutdown collective that touch the thread-manager
counters or the thread lifecycle, as performed by
`ThreadManager::threadShutdownSequence`. -/
inductive ShutdownEvent where
  | joinThread (tid : Nat)
  | decrementShutdownThreads
  | exitThread
deriving DecidableEq, Repr

/-- The two counters of `ThreadManager` the shutdown collective observes. -/
structure ThreadManagerState where
  shutdownThreads : Nat
  totalThreads : Nat
deriving DecidableEq, Repr

/-- The seeding performed by `ThreadManager::shutdown`
(`ThreadManager.cpp` lines 120-122): `_shutdownThreads := _totalThreads`. -/
def shutdownSeed (totalThreads : Nat) : ThreadManagerState :=
  ⟨totalThreads, totalThreads⟩

/-- `ThreadManager::threadShutdownSequence` (`ThreadManager.cpp` lines
201-252) as one worker's sequence of shutdown events: the controller loop
joins some other workers (joins do not touch the counters), then the worker
unconditionally decrements `_shutdownThreads` exactly once and exits. -/
def threadShutdownSequence (joins : List Nat) : List ShutdownEvent :=
  (joins.map ShutdownEvent.joinThread) ++
    [ShutdownEvent.decrementShutdownThreads, ShutdownEvent.exitThread]

/-- Effect of one shutdown event on the thread-manager counters: only the
decrement changes `_shutdownThreads`; nothing changes `_totalThreads`. -/
def applyShutdownEvent (s : ThreadManagerState) :
    ShutdownEvent → ThreadManagerState
  | .decrementShutdownThreads => { s with shutdownThreads := s.shutdownThreads - 1 }
  | _ => s

/-- Run a full interleaved trace of the shutdown collective. -/
def runShutdownTrace (s : ThreadManagerState) (tr : List ShutdownEvent) :
    ThreadManagerState :=
  tr.foldl applyShutdownEvent s

end Nanos6

namespace Nanos6

/-- C5: the only non-null transfer-table entries are host→cluster,
cluster→host and cluster→cluster; and a null source is looked up as host. -/
theorem transfersMap_nonNull_characterisation :
    (∀ s t : Device, transfersMap s t = CopyStepKind.clusterCopy ↔
      ((s = Device.host ∧ t = Device.cluster) ∨
       (s = Device.cluster ∧ t = Device.host) ∨
       (s = Device.cluster ∧ t = Device.cluster))) ∧
    sourceTypeOf none = Device.host := by
  constructor
  · intro s t
    cases s <;> cases t <;> simp [transfersMap]
  · rfl

/-- C6: for a reduction, commutative or concurrent access,
`createDataCopyStep` returns a null step with no registration side effect,
for every cluster mode, current node, source and target. -/
theorem createDataCopyStep_special_access_null (clusterMode : Bool)
    (currentNode : MemoryPlace) (source target : Option MemoryPlace)
    (ty : AccessType)
    (h : ty = .reduction ∨ ty = .commutative ∨ ty = .concurrent) :
    createDataCopyStep clusterMode currentNode source target ty =
      Except.ok ⟨CopyStepKind.nullCopy, false⟩ := by
  unfold createDataCopyStep
  rw [if_pos h]

theorem createDataCopyStep_special_access_null_witness :
    createDataCopyStep true ⟨Device.host, false, 0⟩ none none AccessType.reduction =
      Except.ok ⟨CopyStepKind.nullCopy, false⟩ :=
  createDataCopyStep_special_access_null true ⟨Device.host, false, 0⟩ none none
    AccessType.reduction (Or.inl rfl)

/-- C10: `createNotificationStep` with a null compute place behaves as host
and yields a `HostNotificationStep`; exactly the cluster device kind yields a
`ClusterNotificationStep`; any other device kind is a fatal error. -/
theorem createNotificationStep_spec :
    createNotificationStep none = Except.ok NotificationStepKind.hostNotification ∧
    (∀ d : Device, createNotificationStep (some d) =
        Except.ok NotificationStepKind.clusterNotification ↔ d = Device.cluster) ∧
    (∀ d : Device, d ≠ Device.host → d ≠ Device.cluster →
      createNotificationStep (some d) =
        Except.error "Execution workflow does not support this device yet") := by
  refine ⟨rfl, ?_, ?_⟩
  · intro d
    cases d <;> simp [createNotificationStep]
  · intro d h1 h2
    cases d <;> simp_all [createNotificationStep]

theorem createNotificationStep_spec_witness :
    createNotificationStep (some Device.cuda) =
      Except.error "Execution workflow does not support this device yet" :=
  createNotificationStep_spec.2.2 Device.cuda (by decide) (by decide)

/-- C1 counterexample: the claim says that when `markAsFinished` returns
false the callback does not delete the workflow; but the callback deletes it
unconditionally (`delete workflow` is outside the `if`), so the deletion
event is in the trace even for `markAsFinished = false`. -/
theorem notificationCallback_deletes_on_unfinished :
    Event.deleteWorkflow ∈ notificationCallback false false := by
  decide

/-- C1 amended: the notification callback deletes the workflow exactly once,
as its final action, whatever `markAsFinished` and `markAsReleased` return —
in particular also when `markAsFinished` returns false, which is why the
task's stored workflow pointer dangles afterwards and is reused as the
wait-clause sentinel. -/
theorem notificationCallback_always_deletes_last :
    ∀ finished released : Bool,
      (notificationCallback finished released).getLast? =
        some Event.deleteWorkflow ∧
      (notificationCallback finished released).count Event.deleteWorkflow = 1 := by
  decide

/-- C2: when `markAsFinished` returns true, `TaskFinalization::taskFinished`
runs inside the registrar's finalisation callback before `markAsReleased` is
attempted and before any satisfiability is propagated to successors, and
`disposeTask` runs iff `markAsReleased` returned true. -/
theorem notificationCallback_finalisation_order :
    ∀ released : Bool,
      Event.taskFinished ∈ finalisationCallback released ∧
      precedes (notificationCallback true released) Event.taskFinished
        (Event.markAsReleased released) ∧
      precedes (notificationCallback true released) Event.taskFinished
        Event.propagateSatisfiability ∧
      (Event.disposeTask ∈ notificationCallback true released ↔ released = true) := by
  decide

/-- C3: with threshold `t`, an `addTask` that brings the queue to exactly
`t` hands nothing up; one that brings it to `t + 1` triggers
`handleQueueOverflow`, which hands the parent a non-empty batch of
`max (t / 2) 1` tasks and leaves the queue with at most `t` tasks. -/
theorem addTask_threshold_transitions (st : LeafState) (task : Nat) :
    (st.queue.length + 1 = st.threshold →
      addTask st task true =
        { st with queue := st.queue ++ [task], rebalance := false }) ∧
    (st.queue.length = st.threshold →
      ∃ batch, batch ≠ [] ∧
        (addTask st task true).handedUp = st.handedUp ++ [batch] ∧
        batch.length = max (st.threshold / 2) 1 ∧
        (addTask st task true).queue.length ≤ st.threshold) := by
  constructor
  · intro h
    have hlen : ¬ ((st.queue ++ [task]).length > st.threshold) := by
      simp only [List.length_append, List.length_singleton]
      omega
    simp only [addTask, if_true, if_neg hlen]
  · intro h
    have hq : (st.queue ++ [task]).length = st.threshold + 1 := by
      simp only [List.length_append, List.length_singleton]
      omega
    have hover : (st.queue ++ [task]).length > st.threshold := by omega
    have hth1 : 1 ≤ (if st.threshold / 2 = 0 then 1 else st.threshold / 2) := by
      split <;> omega
    have hthle :
        (if st.threshold / 2 = 0 then 1 else st.threshold / 2) ≤
          st.threshold + 1 := by
      split <;> omega
    have hbatchlen :
        ((st.queue ++ [task]).take
            (if st.threshold / 2 = 0 then 1 else st.threshold / 2)).length =
          max (st.threshold / 2) 1 := by
      rw [List.length_take, hq]
      split <;> omega
    have hpos :
        ((st.queue ++ [task]).take
            (if st.threshold / 2 = 0 then 1 else st.threshold / 2)).length > 0 := by
      rw [hbatchlen]
      omega
    refine ⟨(st.queue ++ [task]).take
        (if st.threshold / 2 = 0 then 1 else st.threshold / 2), ?_, ?_, ?_, ?_⟩
    · intro hnil
      rw [hnil] at hpos
      simp at hpos
    · simp only [addTask, if_true, if_pos hover, handleQueueOverflow,
        getTaskBatch, if_pos hpos]
    · exact hbatchlen
    · simp only [addTask, if_true, if_pos hover, handleQueueOverflow,
        getTaskBatch, if_pos hpos, List.length_drop]
      split <;> omega

theorem addTask_threshold_transitions_witness :
    (addTask ⟨[10, 11, 12], none, 4, true, []⟩ 13 true =
      { (⟨[10, 11, 12], none, 4, true, []⟩ : LeafState) with
          queue := [10, 11, 12] ++ [13], rebalance := false }) ∧
    (∃ batch, batch ≠ [] ∧
      (addTask ⟨[10, 11, 12, 13], none, 4, true, []⟩ 14 true).handedUp =
        ([] : List (List Nat)) ++ [batch] ∧
      batch.length = max (4 / 2) 1 ∧
      (addTask ⟨[10, 11, 12, 13], none, 4, true, []⟩ 14 true).queue.length ≤ 4) :=
  ⟨(addTask_threshold_transitions ⟨[10, 11, 12], none, 4, true, []⟩ 13).1 (by decide),
   (addTask_threshold_transitions ⟨[10, 11, 12, 13], none, 4, true, []⟩ 14).2 (by decide)⟩

/-- C7: delivering a non-empty batch to a leaf whose polling slot is empty
leaves the batch's tail task in the slot and appends the remaining tasks to
the leaf's queue. -/
theorem addTaskBatch_empty_slot (st : LeafState) (batch : List Nat)
    (hslot : st.slot = none) (hne : batch ≠ []) :
    (addTaskBatch st batch).slot = batch.getLast? ∧
    (addTaskBatch st batch).queue = st.queue ++ batch.dropLast := by
  cases hgl : batch.getLast? with
  | none =>
    exact absurd (List.getLast?_eq_none_iff.mp hgl) hne
  | some tail =>
    unfold addTaskBatch
    rw [hgl]
    simp [hslot]

theorem addTaskBatch_empty_slot_witness :
    (addTaskBatch ⟨[], none, 0, false, []⟩ [1, 2, 3]).slot = [1, 2, 3].getLast? ∧
    (addTaskBatch ⟨[], none, 0, false, []⟩ [1, 2, 3]).queue =
      [] ++ [1, 2, 3].dropLast :=
  addTaskBatch_empty_slot ⟨[], none, 0, false, []⟩ [1, 2, 3] rfl (by decide)

/-- C4 counterexample: a malformed scheduling-policy value does not abort;
"garbage" is outside the fifo/lifo enumeration yet the constructor
silently selects the FIFO policy. -/
theorem selectSchedulingPolicy_malformed_no_abort :
    ¬ ("garbage" = "fifo" ∨ "garbage" = "lifo" ∨
       "garbage" = "FIFO" ∨ "garbage" = "LIFO") ∧
    selectSchedulingPolicy "garbage" = Except.ok SchedulingPolicy.fifo := by
  constructor
  · decide
  · rfl

/-- C4 amended: every value for the scheduling-policy key other than "LIFO"
and "lifo" — malformed ones included — silently selects the FIFO policy;
no abort and no diagnostic is produced for the policy value. -/
theorem selectSchedulingPolicy_default_fifo (v : String)
    (h1 : v ≠ "LIFO") (h2 : v ≠ "lifo") :
    selectSchedulingPolicy v = Except.ok SchedulingPolicy.fifo := by
  simp [selectSchedulingPolicy, h1, h2]

theorem selectSchedulingPolicy_default_fifo_witness :
    selectSchedulingPolicy "fifo " = Except.ok SchedulingPolicy.fifo :=
  selectSchedulingPolicy_default_fifo "fifo " (by decide) (by decide)

/-- C8: for a target memory place satisfying the callers' invariant (it is
not the directory memory place), `createDataCopyStep` never fails its
assertions: it returns a step for every cluster mode, source and access
type, so the directory can appear only as a source. -/
theorem createDataCopyStep_legal_target_no_assert (clusterMode : Bool)
    (currentNode : MemoryPlace) (source : Option MemoryPlace)
    (tgt : MemoryPlace) (ty : AccessType) (h : LegalCopyTarget tgt) :
    (createDataCopyStep clusterMode currentNode source (some tgt) ty).isOk =
      true := by
  unfold LegalCopyTarget at h
  unfold createDataCopyStep
  by_cases hty : ty = .reduction ∨ ty = .commutative ∨ ty = .concurrent
  · rw [if_pos hty]
    rfl
  · rw [if_neg hty]
    simp [h, Except.isOk, Except.toBool]

theorem runShutdownTrace_eq (tr : List ShutdownEvent) (s : ThreadManagerState) :
    runShutdownTrace s tr =
      ⟨s.shutdownThreads - tr.count ShutdownEvent.decrementShutdownThreads,
       s.totalThreads⟩ := by
  induction tr generalizing s with
  | nil => rfl
  | cons e tl ih =>
    have hstep : runShutdownTrace s (e :: tl) =
        runShutdownTrace (applyShutdownEvent s e) tl := rfl
    rw [hstep, ih]
    cases e
    all_goals simp [applyShutdownEvent, List.count_cons, ThreadManagerState.mk.injEq]
    all_goals omega

theorem count_decrement_threadShutdownSequence (joins : List Nat) :
    (threadShutdownSequence joins).count
      ShutdownEvent.decrementShutdownThreads = 1 := by
  unfold threadShutdownSequence
  rw [List.count_append]
  have h0 : (joins.map ShutdownEvent.joinThread).count
      ShutdownEvent.decrementShutdownThreads = 0 := by
    rw [List.count_eq_zero]
    intro h
    obtain ⟨t, _, ht⟩ := List.mem_map.mp h
    exact ShutdownEvent.noConfusion ht
  rw [h0]
  rfl

theorem count_decrement_join (jss : List (List Nat)) :
    ((jss.map threadShutdownSequence).flatten).count
      ShutdownEvent.decrementShutdownThreads = jss.length := by
  induction jss with
  | nil => rfl
  | cons js tl ih =>
    simp only [List.map_cons, List.flatten_cons, List.count_append, ih,
      count_decrement_threadShutdownSequence, List.length_cons]
    omega

/-- C9: each worker's `threadShutdownSequence` decrements `shutdownThreads`
exactly once, before its exit; and for a collective of `n` workers seeded by
`ThreadManager::shutdown` with `shutdownThreads := totalThreads = n`, any
interleaving of the workers' event sequences (all of which have completed
once the controllers are joined) ends with `shutdownThreads = 0` and
`totalThreads` still equal to `n`. -/
theorem shutdown_collective_invariant :
    (∀ joins : List Nat,
      (threadShutdownSequence joins).count
        ShutdownEvent.decrementShutdownThreads = 1 ∧
      List.Sublist
        [ShutdownEvent.decrementShutdownThreads, ShutdownEvent.exitThread]
        (threadShutdownSequence joins)) ∧
    (∀ (n : Nat) (jss : List (List Nat)) (trace : List ShutdownEvent),
      jss.length = n →
      trace.Perm ((jss.map threadShutdownSequence).flatten) →
      runShutdownTrace (shutdownSeed n) trace = ⟨0, n⟩) := by
  constructor
  · intro joins
    refine ⟨count_decrement_threadShutdownSequence joins, ?_⟩
    exact List.sublist_append_right _ _
  · intro n jss trace hlen hperm
    have hcount : trace.count ShutdownEvent.decrementShutdownThreads = n := by
      rw [hperm.count_eq, count_decrement_join, hlen]
    rw [runShutdownTrace_eq, hcount]
    simp [shutdownSeed]

theorem shutdown_collective_invariant_witness :
    (threadShutdownSequence [3]).count
      ShutdownEvent.decrementShutdownThreads = 1 ∧
    runShutdownTrace (shutdownSeed 2)
      (([[], [5]].map threadShutdownSequence).flatten) = ⟨0, 2⟩ :=
  ⟨(shutdown_collective_invariant.1 [3]).1,
   shutdown_collective_invariant.2 2 [[], [5]] _ rfl (List.Perm.refl _)⟩

theorem createDataCopyStep_legal_target_no_assert_witness :
    (createDataCopyStep false ⟨Device.host, false, 0⟩ none
      (some ⟨Device.host, false, 0⟩) AccessType.read).isOk = true :=
  createDataCopyStep_legal_target_no_assert false ⟨Device.host, false, 0⟩ none
    ⟨Device.host, false, 0⟩ AccessType.read rfl

end Nanos6
